import Mathlib

/-!
Shallow embedding of the key-management core of the RadixWalletKit repository
(`profile` and `wallet_kit_common` crates), together with proofs of the
specified properties.  Pure Rust functions become Lean functions; the
`Wallet` mutator becomes explicit state passing; fallible Rust code returns
`Except`; a Rust `assert!`/`panic!` is modelled by a dedicated outcome
constructor.  External collaborators (secure storage, profile persistence,
the bech32 codec, the curve arithmetic) are modelled at their interface
boundary, as the specification prescribes.
-/

namespace RadixWalletKit

/-- Network identifier (`NetworkID`), carried by its `discriminant` byte. -/
structure NetworkID where
  discriminant : Nat
deriving DecidableEq

/-- CAP26 key kinds (`CAP26KeyKind`). -/
inductive CAP26KeyKind where
  | TransactionSigning
  | AuthenticationSigning
  | MessageEncryption
deriving DecidableEq

/-- Kind of a factor source (`FactorSourceKind`). -/
inductive FactorSourceKind where
  | Device
  | LedgerHQHardwareWallet
deriving DecidableEq

/-- A BIP39 mnemonic (as its word indices) together with an optional BIP39
passphrase (`MnemonicWithPassphrase`).  The word list internals are not
needed by the claims; the words are carried as their 11-bit indices. -/
structure MnemonicWithPassphrase where
  words : List Nat
  passphrase : String
deriving DecidableEq

/-- The content-hash identity of a factor source (`FactorSourceIDFromHash`):
a factor source kind together with a 32-byte hash body. -/
structure FactorSourceIDFromHash where
  kind : FactorSourceKind
  body : Nat
deriving DecidableEq

/-- Modelled from the spec: the hashing collaborator computing the canonical
fingerprint of a mnemonic's key material (the repository's implementation of
`FactorSourceIDFromHash::from_mnemonic_with_passphrase` is not under `src/`).
Any deterministic, effectively injective function of the mnemonic serves the
claims; we fold the word indices and the passphrase length into one number. -/
def mnemonic_fingerprint (mwp : MnemonicWithPassphrase) : Nat :=
  (mwp.words.foldl (fun acc w => acc * 2048 + w + 1) 0) * 257 + mwp.passphrase.length

/-- Modelled from the spec: `FactorSourceID::from_mnemonic(kind, mwp)`, the
canonical deterministic fingerprint naming a factor source. -/
def FactorSourceIDFromHash.from_mnemonic_with_passphrase
    (kind : FactorSourceKind) (mwp : MnemonicWithPassphrase) : FactorSourceIDFromHash :=
  ⟨kind, mnemonic_fingerprint mwp⟩

/-- A device factor source (`DeviceFactorSource`): its hash-based id, whether
its common flags contain `main` (the "Babylon device factor source" marker),
and its hint metadata. -/
structure DeviceFactorSource where
  id : FactorSourceIDFromHash
  main : Bool
  hint : String
deriving DecidableEq

/-- `DeviceFactorSource::factor_source_kind`. -/
def DeviceFactorSource.factor_source_kind (_ : DeviceFactorSource) : FactorSourceKind :=
  FactorSourceKind.Device

/-- A Ledger hardware wallet factor source (`LedgerHardwareWalletFactorSource`). -/
structure LedgerHardwareWalletFactorSource where
  id : FactorSourceIDFromHash
  hint : String
deriving DecidableEq

/-- The discriminated union of factor sources (`FactorSource`). -/
inductive FactorSource where
  | Device (factor : DeviceFactorSource)
  | Ledger (factor : LedgerHardwareWalletFactorSource)
deriving DecidableEq

/-- `FactorSource::factor_source_id` (the repository's `FactorSourceID` enum
has only the hash-based case for the sources modelled here). -/
def FactorSource.factor_source_id : FactorSource → FactorSourceIDFromHash
  | .Device factor => factor.id
  | .Ledger factor => factor.id

/-- A compressed public key, carried as its byte content (`PublicKey`). -/
structure PublicKey where
  compressedData : Nat
deriving DecidableEq

/-- The entity-type tag of an address (`AbstractEntityType`). -/
inductive AbstractEntityType where
  | Account
  | Identity
  | Resource
deriving DecidableEq

/-- `AbstractEntityType::hrp`: the human-readable prefix owned by each
entity type. -/
def AbstractEntityType.hrp : AbstractEntityType → String
  | .Account => "account_"
  | .Identity => "identity_"
  | .Resource => "resource_"

/-- Modelled from the spec: the network-dependent tail of the full bech32
human-readable part (the bech32 codec is an external collaborator). -/
def network_hrp_tail (n : NetworkID) : String :=
  if n.discriminant = 1 then "rdx" else "tdx_" ++ toString n.discriminant ++ "_"

/-- Modelled from the spec: a bech32 address string, abstracted at the bech32
codec boundary as either a well-formed encoding of
(network, entity type, hrp, payload) or an undecodable string. -/
inductive AddressString where
  | valid (network_id : NetworkID) (entity_type : AbstractEntityType)
      (hrp : String) (payload : Nat)
  | invalid (raw : String)
deriving DecidableEq

/-- An entity address: the type-level entity tag of the Rust implementing
type, the bech32 string and the network id. -/
structure AnyEntityAddress where
  entity_type : AbstractEntityType
  address : AddressString
  network_id : NetworkID
deriving DecidableEq

/-- The error type of the crate (`CommonError`), restricted to the variants
the embedded operations use.  `IdentityMismatch` is the name the spec gives
to a mnemonic/factor-source pairing failure. -/
inductive CommonError where
  | Unknown
  | UnableToSaveFactorSourceToProfile (id : FactorSourceIDFromHash)
  | AccountAlreadyPresent (id : AnyEntityAddress)
  | UnknownAccount
  | FactorSourcesMustNotBeEmpty
  | InvalidDisplayNameEmpty
  | InvalidDisplayNameTooLong
  | MismatchingEntityTypeWhileDecodingAddress
  | MismatchingHRPWhileDecodingAddress
  | FailedToDecodeAddressFromBech32
  | WrongKeyKindOfTransactionSigningFactorInstance
  | WrongKeyKindOfAuthenticationSigningFactorInstance
  | IdentityMismatch
  | UnableToSaveMnemonicToSecureStorage
  | UnableToLoadMnemonicFromSecureStorage
  | FailedToSaveProfileSnapshot
deriving DecidableEq

/-- A display name (`DisplayName`): the validated, trimmed string. -/
structure DisplayName where
  value : String
deriving DecidableEq

/-- `DisplayName::max_len`. -/
def DisplayName.max_len : Nat := 30

/-- Rust `str::trim`: drop leading and trailing whitespace characters. -/
def rust_trim (s : String) : String :=
  String.mk (((s.data.dropWhile Char.isWhitespace).reverse.dropWhile
    Char.isWhitespace).reverse)

/-- Rust `str::len`: the length of the string in UTF-8 bytes. -/
def utf8_len (s : String) : Nat :=
  (s.data.map Char.utf8Size).sum

/-- `DisplayName::new`: trims the input, rejects an empty trimmed string and
a trimmed string whose UTF-8 byte length (Rust `str::len`) exceeds
`max_len`. -/
def DisplayName.new (value : String) : Except CommonError DisplayName :=
  let v := rust_trim value
  if v.isEmpty then Except.error CommonError.InvalidDisplayNameEmpty
  else if utf8_len v > DisplayName.max_len then
    Except.error CommonError.InvalidDisplayNameTooLong
  else Except.ok ⟨v⟩

/-- Modelled from the spec: `decode_address` (the decode helper built on the
bech32 codec collaborator, not under `src/`): a well-formed address string
decodes into its `(network, entity_type, hrp)` triple, anything else yields
the generic decode error. -/
def decode_address (s : AddressString) :
    Except CommonError (NetworkID × AbstractEntityType × String) :=
  match s with
  | .valid n t hrp _ => Except.ok (n, t, hrp)
  | .invalid _ => Except.error CommonError.FailedToDecodeAddressFromBech32

/-- Modelled from the spec: the engine collaborator deriving the virtual
address component from a public key (`virtual_account_address_from_public_key`
and the identity analogue); deterministic in the key and distinguished by the
entity kind. -/
def virtual_entity_component (t : AbstractEntityType) (pk : PublicKey) : Nat :=
  match t with
  | .Account => 2 * pk.compressedData
  | .Identity => 2 * pk.compressedData + 1
  | .Resource => 0

/-- `EntityAddress::from_public_key` for the implementing type tagged `t`:
derives the address component for the entity type, bech32-encodes it for the
network, and wraps the result.  The `Resource` arm of the Rust `match` is
`panic!`, modelled as `none`. -/
def EntityAddress.from_public_key (t : AbstractEntityType) (pk : PublicKey)
    (network_id : NetworkID) : Option AnyEntityAddress :=
  match t with
  | .Resource => none
  | _ =>
    some ⟨t,
      AddressString.valid network_id t (t.hrp ++ network_hrp_tail network_id)
        (virtual_entity_component t pk),
      network_id⟩

/-- Rust `str::starts_with`, on the character sequences of the two
strings. -/
def string_starts_with (s p : String) : Bool :=
  p.data.isPrefixOf s.data

/-- `EntityAddress::try_from_bech32` for the implementing type tagged `t`:
decodes, rejects a mismatching entity type, rejects an hrp that does not
start with the expected prefix, and otherwise constructs the address. -/
def EntityAddress.try_from_bech32 (t : AbstractEntityType) (s : AddressString) :
    Except CommonError AnyEntityAddress :=
  match decode_address s with
  | Except.error e => Except.error e
  | Except.ok (network_id, entity_type, hrp) =>
    if entity_type ≠ t then
      Except.error CommonError.MismatchingEntityTypeWhileDecodingAddress
    else if ¬ (string_starts_with hrp entity_type.hrp) then
      Except.error CommonError.MismatchingHRPWhileDecodingAddress
    else Except.ok ⟨t, s, network_id⟩

/-- `AccountAddress::from_public_key`: the `Account` instantiation of
`EntityAddress::from_public_key`, where the panicking `Resource` arm is
unreachable. -/
def AccountAddress.from_public_key (pk : PublicKey) (network_id : NetworkID) :
    AnyEntityAddress :=
  ⟨AbstractEntityType.Account,
    AddressString.valid network_id AbstractEntityType.Account
      (AbstractEntityType.Account.hrp ++ network_hrp_tail network_id)
      (virtual_entity_component AbstractEntityType.Account pk),
    network_id⟩

/-- One concrete derived key (`HierarchicalDeterministicFactorInstance`):
the id of the producing factor source, the derived public key, the CAP26
derivation path (as its raw components) and, per the spec's data model, the
optional CAP26 key-kind tag read off the path. -/
structure HierarchicalDeterministicFactorInstance where
  factor_source_id : FactorSourceIDFromHash
  public_key : PublicKey
  derivation_path : List Nat
  key_kind : Option CAP26KeyKind
deriving DecidableEq

/-- `HDPath::last_component` of the instance's derivation path. -/
def HierarchicalDeterministicFactorInstance.last_path_component
    (fi : HierarchicalDeterministicFactorInstance) : Nat :=
  fi.derivation_path.getLastD 0

/-- Control of an unsecured entity (`UnsecuredEntityControl`). -/
structure UnsecuredEntityControl where
  transaction_signing : HierarchicalDeterministicFactorInstance
  authentication_signing : Option HierarchicalDeterministicFactorInstance
deriving DecidableEq

/-- `UnsecuredEntityControl::new`: validates the optional key-kind tag of the
authentication-signing instance first, then the tag of the
transaction-signing instance, exactly as the source does. -/
def UnsecuredEntityControl.new
    (transaction_signing : HierarchicalDeterministicFactorInstance)
    (authentication_signing : Option HierarchicalDeterministicFactorInstance) :
    Except CommonError UnsecuredEntityControl :=
  let auth_check : Option CommonError :=
    match authentication_signing with
    | some auth =>
      match auth.key_kind with
      | some key_kind =>
        if key_kind ≠ CAP26KeyKind.AuthenticationSigning then
          some CommonError.WrongKeyKindOfAuthenticationSigningFactorInstance
        else none
      | none => none
    | none => none
  match auth_check with
  | some e => Except.error e
  | none =>
    match transaction_signing.key_kind with
    | some key_kind =>
      if key_kind ≠ CAP26KeyKind.TransactionSigning then
        Except.error CommonError.WrongKeyKindOfTransactionSigningFactorInstance
      else Except.ok ⟨transaction_signing, authentication_signing⟩
    | none => Except.ok ⟨transaction_signing, authentication_signing⟩

/-- `UnsecuredEntityControl::with_account_creating_factor_instance`
(no validation; the wrapper type already guarantees the key kind). -/
def UnsecuredEntityControl.with_account_creating_factor_instance
    (fi : HierarchicalDeterministicFactorInstance) : UnsecuredEntityControl :=
  ⟨fi, none⟩

/-- The security state machine of an entity (`EntitySecurityState`);
`Unsecured` is today the only variant. -/
inductive EntitySecurityState where
  | unsecured (control : UnsecuredEntityControl)
deriving DecidableEq

/-- A wallet account (`Account`).  The metadata fields (appearance id, flags,
on-ledger settings) are conventional data carried along; the security state
is the field the ordering and the claims are about. -/
structure Account where
  network_id : NetworkID
  address : AnyEntityAddress
  display_name : DisplayName
  security_state : EntitySecurityState
  appearance_id : Nat
  flags : List Nat
  on_ledger_settings : Nat
deriving DecidableEq

/-- The CAP26 account path `m/44H/1022H/<network>H/525H/1460H/<index>H`
built by `AccountPath::new(network, TransactionSigning, index)`, as its raw
component values. -/
def account_path_components (network_id : NetworkID) (index : Nat) : List Nat :=
  [44, 1022, network_id.discriminant, 525, 1460, index]

/-- Modelled from the spec: the curve collaborator
`derive(seed, path) -> KeyPair`, deterministic in the mnemonic and the path;
only its public key is needed here. -/
def derive_public_key (mwp : MnemonicWithPassphrase) (path : List Nat) : PublicKey :=
  ⟨path.foldl (fun acc c => acc * 4294967296 + c + 1) (mnemonic_fingerprint mwp)⟩

/-- An account-creation factor instance (`HDFactorInstanceAccountCreation`):
a factor instance whose path is an account path with the
`TransactionSigning` key kind, together with the network of that path. -/
structure HDFactorInstanceAccountCreation where
  factor_instance : HierarchicalDeterministicFactorInstance
  network_id : NetworkID
deriving DecidableEq

/-- `Account::new`: computes the address from the account-creation factor
instance's public key and network, and wires the instance up as the
transaction-signing factor of an unsecured security state. -/
def Account.new (fi : HDFactorInstanceAccountCreation) (display_name : DisplayName)
    (appearance_id : Nat) : Account :=
  { network_id := fi.network_id
  , address := AccountAddress.from_public_key fi.factor_instance.public_key fi.network_id
  , display_name := display_name
  , security_state := EntitySecurityState.unsecured
      (UnsecuredEntityControl.with_account_creating_factor_instance fi.factor_instance)
  , appearance_id := appearance_id
  , flags := []
  , on_ledger_settings := 0 }

/-- The last path component of an account's transaction-signing factor
instance, the quantity `Ord for Account` compares. -/
def Account.last_path_component (a : Account) : Nat :=
  match a.security_state with
  | .unsecured control => control.transaction_signing.last_path_component

/-- `Ord for Account`: compares the last path component (the derivation
index) of the transaction-signing factor instances of the two (necessarily
`Unsecured`) security states. -/
def Account.cmp (a b : Account) : Ordering :=
  match a.security_state, b.security_state with
  | .unsecured l, .unsecured r =>
    compare l.transaction_signing.last_path_component
      r.transaction_signing.last_path_component

/-- Rust `a < b` derived from `Ord for Account`. -/
def Account.lt (a b : Account) : Prop :=
  Account.cmp a b = Ordering.lt

/-- Outcome of an operation that can also `panic!`/fail an assertion:
a panic aborts and carries no `CommonError` value. -/
inductive PResult (α : Type) where
  | ok (value : α)
  | err (error : CommonError)
  | assertFailed
deriving DecidableEq

/-- A mnemonic paired with the public device factor source it produced
(`PrivateHierarchicalDeterministicFactorSource`). -/
structure PrivateHierarchicalDeterministicFactorSource where
  mnemonic_with_passphrase : MnemonicWithPassphrase
  factor_source : DeviceFactorSource
deriving DecidableEq

/-- `PrivateHierarchicalDeterministicFactorSource::new`: `assert_eq!`s that
the supplied factor source's id equals the fingerprint recomputed from the
supplied mnemonic; the assertion failure is a panic, not an error value. -/
def PrivateHierarchicalDeterministicFactorSource.new
    (mnemonic_with_passphrase : MnemonicWithPassphrase)
    (factor_source : DeviceFactorSource) :
    PResult PrivateHierarchicalDeterministicFactorSource :=
  if factor_source.id =
      FactorSourceIDFromHash.from_mnemonic_with_passphrase
        factor_source.factor_source_kind mnemonic_with_passphrase then
    PResult.ok ⟨mnemonic_with_passphrase, factor_source⟩
  else PResult.assertFailed

/-- `PrivateHierarchicalDeterministicFactorSource::derive_account_creation_factor_instance`:
derives the key at the account path for `(network_id, TransactionSigning,
index)` and wraps it as an account-creation instance. -/
def PrivateHierarchicalDeterministicFactorSource.derive_account_creation_factor_instance
    (p : PrivateHierarchicalDeterministicFactorSource)
    (network_id : NetworkID) (index : Nat) : HDFactorInstanceAccountCreation :=
  let path := account_path_components network_id index
  { factor_instance :=
      { factor_source_id := p.factor_source.id
      , public_key := derive_public_key p.mnemonic_with_passphrase path
      , derivation_path := path
      , key_kind := some CAP26KeyKind.TransactionSigning }
  , network_id := network_id }

/-- `identified_vec` collaborator: `append` inserts at the end unless an
element with the same id is already present; returns whether it inserted. -/
def identified_append {α β : Type} [DecidableEq β] (key : α → β)
    (xs : List α) (x : α) : Bool × List α :=
  if xs.any (fun y => decide (key y = key x)) then (false, xs)
  else (true, xs ++ [x])

/-- `identified_vec` collaborator: `from_iter` keeps the first element for
each id, in insertion order. -/
def identified_from_iter {α β : Type} [DecidableEq β] (key : α → β)
    (l : List α) : List α :=
  l.foldl (fun acc x => (identified_append key acc x).2) []

/-- `FactorSources::try_from_iter`: collects into an identified collection
and rejects an empty result with `FactorSourcesMustNotBeEmpty`. -/
def FactorSources.try_from_iter (l : List FactorSource) :
    Except CommonError (List FactorSource) :=
  let vec := identified_from_iter FactorSource.factor_source_id l
  if vec.length = 0 then Except.error CommonError.FactorSourcesMustNotBeEmpty
  else Except.ok vec

/-- One per-network collection of entities (`Network`): the network id and
its accounts (an identified collection keyed by account address). -/
structure Network where
  id : NetworkID
  accounts : List Account
deriving DecidableEq

/-- The in-memory profile snapshot (`Profile`), restricted to the fields the
claims touch: the factor sources and the per-network entity collections. -/
structure Profile where
  factor_sources : List FactorSource
  networks : List Network
deriving DecidableEq

/-- `identified_vec` collaborator: `contains_id` on the networks. -/
def networks_contains_id (ns : List Network) (network_id : NetworkID) : Bool :=
  ns.any (fun n => decide (n.id = network_id))

/-- `identified_vec` collaborator: `try_update_with` runs the fallible
update on the element with the given id, propagating the closure's error and
reporting whether an element with that id was found. -/
def networks_try_update_with (ns : List Network) (network_id : NetworkID)
    (f : Network → Except CommonError Network) :
    Except CommonError (Bool × List Network) :=
  match ns with
  | [] => Except.ok (false, [])
  | n :: rest =>
    if n.id = network_id then
      match f n with
      | Except.error e => Except.error e
      | Except.ok n' => Except.ok (true, n' :: rest)
    else
      match networks_try_update_with rest network_id f with
      | Except.error e => Except.error e
      | Except.ok (found, rest') => Except.ok (found, n :: rest')

/-- The accounts of the first network entry with the given id (empty when
there is no such entry).  Used to state account lookups and counts. -/
def networks_accounts_on (ns : List Network) (network_id : NetworkID) : List Account :=
  match ns.find? (fun n => decide (n.id = network_id)) with
  | some n => n.accounts
  | none => []

/-- The accounts of the network entry for `network_id` (empty when the
profile has no such entry). -/
def accounts_on_network (p : Profile) (network_id : NetworkID) : List Account :=
  networks_accounts_on p.networks network_id

/-- The fallible per-network update `Wallet::add_account` performs: append
the account to the network's identified account collection, failing with
`AccountAlreadyPresent` when an account with the same address is already
there. -/
def append_account_closure (account : Account) (network : Network) :
    Except CommonError Network :=
  let ap := identified_append Account.address network.accounts account
  if ap.1 then Except.ok { network with accounts := ap.2 }
  else Except.error (CommonError.AccountAlreadyPresent account.address)

/-- The closure `Wallet::add_account` passes to `try_write`, as the pure
new-profile-from-old function: append the account to the matching network's
identified account collection, failing with `AccountAlreadyPresent` when an
account with the same address is already there, or create the network entry
when absent. -/
def Profile.add_account_to_networks (p : Profile) (account : Account) :
    Except CommonError Profile :=
  let network_id := account.network_id
  let err_exists := CommonError.AccountAlreadyPresent account.address
  if networks_contains_id p.networks network_id then
    match networks_try_update_with p.networks network_id (append_account_closure account) with
    | Except.error e => Except.error e
    | Except.ok (found, networks') =>
      if found then Except.ok { p with networks := networks' }
      else Except.error err_exists
  else
    Except.ok { p with networks :=
      (identified_append Network.id p.networks ⟨network_id, [account]⟩).2 }

/-- The wallet's in-memory state: the held profile snapshot plus the content
of the secure-storage collaborator (mnemonics keyed by factor source id). -/
structure WalletState where
  profile : Profile
  mnemonics : List (FactorSourceIDFromHash × MnemonicWithPassphrase)
deriving DecidableEq

/-- Failure behaviour of the external storage collaborators during one
operation: whether the secure-storage save / delete and the profile-snapshot
persistence calls fail. -/
structure StorageOracle where
  save_mnemonic_fails : Bool
  delete_mnemonic_fails : Bool
  persist_profile_fails : Bool
deriving DecidableEq

/-- Modelled from the spec: `Wallet::try_write` — compute the new profile
from the old one as a pure function; only on success attempt to persist the
snapshot; any failure leaves the in-memory profile in its pre-operation
state. -/
def Wallet.try_write (persist_profile_fails : Bool) (st : WalletState)
    (f : Profile → Except CommonError Profile) :
    Except CommonError Unit × WalletState :=
  match f st.profile with
  | Except.error e => (Except.error e, st)
  | Except.ok p' =>
    if persist_profile_fails then
      (Except.error CommonError.FailedToSaveProfileSnapshot, st)
    else (Except.ok (), { st with profile := p' })

/-- `Wallet::add_account`. -/
def Wallet.add_account (persist_profile_fails : Bool) (st : WalletState)
    (account : Account) : Except CommonError Unit × WalletState :=
  Wallet.try_write persist_profile_fails st
    (fun p => Profile.add_account_to_networks p account)

/-- `Wallet::add_factor_source`: appends to the identified factor-source
collection inside `try_write`, then maps every failure to
`UnableToSaveFactorSourceToProfile` (as the source's `map_err` does). -/
def Wallet.add_factor_source (o : StorageOracle) (st : WalletState)
    (factor_source : FactorSource) : Except CommonError Unit × WalletState :=
  match Wallet.try_write o.persist_profile_fails st (fun p =>
      let ap := identified_append FactorSource.factor_source_id p.factor_sources factor_source
      if ap.1 then Except.error CommonError.Unknown
      else Except.ok { p with factor_sources := ap.2 }) with
  | (Except.ok _, st') => (Except.ok (), st')
  | (Except.error _, st') =>
    (Except.error (CommonError.UnableToSaveFactorSourceToProfile
      factor_source.factor_source_id), st')

/-- `Wallet::add_private_device_factor_source`: save the mnemonic to secure
storage keyed by the factor source id, then add the public record via
`add_factor_source`; on failure of that second step attempt to delete the
just-saved mnemonic, discarding the delete's own result (`_ = ...`), and
return the second step's error.  The third component records whether the
compensating delete was attempted. -/
def Wallet.add_private_device_factor_source (o : StorageOracle) (st : WalletState)
    (pfs : PrivateHierarchicalDeterministicFactorSource) :
    Except CommonError Unit × WalletState × Bool :=
  let id := pfs.factor_source.id
  if o.save_mnemonic_fails then
    (Except.error CommonError.UnableToSaveMnemonicToSecureStorage, st, false)
  else
    let st1 : WalletState :=
      { st with mnemonics := (id, pfs.mnemonic_with_passphrase) :: st.mnemonics }
    match Wallet.add_factor_source o st1 (FactorSource.Device pfs.factor_source) with
    | (Except.ok _, st2) => (Except.ok (), st2, false)
    | (Except.error e, st2) =>
      let st3 : WalletState :=
        if o.delete_mnemonic_fails then st2
        else { st2 with mnemonics := st2.mnemonics.filter (fun kv => decide (kv.1 ≠ id)) }
      (Except.error e, st3, true)

/-- Modelled from the spec: `Profile::bdfs` — the designated primary
("main" Babylon) device factor source of the profile; the source panics when
the profile invariant (such a source exists) is broken, here `none`. -/
def Profile.bdfs (p : Profile) : Option DeviceFactorSource :=
  p.factor_sources.findSome? (fun fs =>
    match fs with
    | .Device factor => if factor.main then some factor else none
    | .Ledger _ => none)

/-- Modelled from the spec: `Profile::next_derivation_index_for_entity` for
accounts — the next unused index, found by scanning the existing accounts on
the given network. -/
def Profile.next_derivation_index_for_entity (p : Profile) (network_id : NetworkID) : Nat :=
  (accounts_on_network p network_id).length

/-- Modelled from the spec: `AppearanceID::from_number_of_accounts_on_network`
(cycles through the fixed palette of 12 gradients). -/
def appearance_id_from_number_of_accounts (count : Nat) : Nat := count % 12

/-- `Wallet::load_private_device_factor_source`: load the mnemonic for the
device factor source's id from secure storage and rebuild the private
factor source (whose constructor asserts the identity match). -/
def Wallet.load_private_device_factor_source (st : WalletState)
    (device_factor_source : DeviceFactorSource) :
    PResult PrivateHierarchicalDeterministicFactorSource :=
  match st.mnemonics.lookup device_factor_source.id with
  | none => PResult.err CommonError.UnableToLoadMnemonicFromSecureStorage
  | some mwp =>
    PrivateHierarchicalDeterministicFactorSource.new mwp device_factor_source

/-- `Wallet::create_new_account`: reads the profile's main device factor
source, computes the next derivation index and the appearance id, derives a
fresh account-creation factor instance and constructs the `Account` —
without writing to the profile. -/
def Wallet.create_new_account (st : WalletState) (network_id : NetworkID)
    (name : DisplayName) : PResult Account × WalletState :=
  let profile := st.profile
  match profile.bdfs with
  | none => (PResult.assertFailed, st)
  | some bdfs =>
    let index := profile.next_derivation_index_for_entity network_id
    let number_of_accounts_on_network := (accounts_on_network profile network_id).length
    let appearance_id := appearance_id_from_number_of_accounts number_of_accounts_on_network
    match Wallet.load_private_device_factor_source st bdfs with
    | PResult.err e => (PResult.err e, st)
    | PResult.assertFailed => (PResult.assertFailed, st)
    | PResult.ok p =>
      (PResult.ok (Account.new
        (p.derive_account_creation_factor_instance network_id index) name appearance_id), st)

/-- A concrete mnemonic used to instantiate the universally quantified
theorems. -/
def placeholder_mwp : MnemonicWithPassphrase := ⟨[0, 1, 2], ""⟩

/-- A second, different concrete mnemonic. -/
def placeholder_mwp_other : MnemonicWithPassphrase := ⟨[3, 4, 5], ""⟩

/-- The device factor source correctly fingerprinted from
`placeholder_mwp`, flagged as the main Babylon device factor source. -/
def placeholder_dfs : DeviceFactorSource :=
  ⟨FactorSourceIDFromHash.from_mnemonic_with_passphrase FactorSourceKind.Device
      placeholder_mwp,
    true, "iPhone"⟩

/-- A concrete display name. -/
def placeholder_name : DisplayName := ⟨"Alice"⟩

/-- The valid private/public pairing of the two placeholders. -/
def placeholder_private_hd : PrivateHierarchicalDeterministicFactorSource :=
  ⟨placeholder_mwp, placeholder_dfs⟩

/-- A concrete mainnet account derived from `placeholder_private_hd` at the
given index. -/
def placeholder_account_at (index : Nat) : Account :=
  Account.new
    (placeholder_private_hd.derive_account_creation_factor_instance ⟨1⟩ index)
    placeholder_name (appearance_id_from_number_of_accounts index)

/-- A wallet state whose profile holds only the placeholder device factor
source and whose secure storage holds its mnemonic. -/
def placeholder_wallet_state : WalletState :=
  { profile := { factor_sources := [FactorSource.Device placeholder_dfs], networks := [] }
  , mnemonics := [(placeholder_dfs.id, placeholder_mwp)] }

/-- A factor instance carrying the given CAP26 key-kind tag. -/
def instance_tagged (key_kind : CAP26KeyKind) : HierarchicalDeterministicFactorInstance :=
  ⟨⟨FactorSourceKind.Device, 0⟩, ⟨0⟩, [44, 1022, 1, 525, 1460, 0], some key_kind⟩

/-- The address produced for the placeholder public key `5` on mainnet. -/
def c3_addr : AnyEntityAddress :=
  ⟨AbstractEntityType.Account,
    AddressString.valid ⟨1⟩ AbstractEntityType.Account
      (AbstractEntityType.Account.hrp ++ network_hrp_tail ⟨1⟩)
      (virtual_entity_component AbstractEntityType.Account ⟨5⟩),
    ⟨1⟩⟩

/-- The wallet state reached from `placeholder_wallet_state` by adding the
account derived at index 0: a mainnet network entry holding exactly that
account. -/
def c8_state1 : WalletState :=
  { profile :=
      { factor_sources := [FactorSource.Device placeholder_dfs]
      , networks := [⟨⟨1⟩, [placeholder_account_at 0]⟩] }
  , mnemonics := [(placeholder_dfs.id, placeholder_mwp)] }

-- ===================================================================
-- Theorems
-- ===================================================================

/-- Claim C9: constructing a `FactorSources` collection from an empty
sequence fails with `FactorSourcesMustNotBeEmpty`; from a single factor
source it succeeds and the resulting collection has length 1. -/
theorem claim_C9_factor_sources_nonempty :
    FactorSources.try_from_iter [] =
      Except.error CommonError.FactorSourcesMustNotBeEmpty ∧
    ∀ fs : FactorSource,
      FactorSources.try_from_iter [fs] = Except.ok [fs] ∧
      ([fs] : List FactorSource).length = 1 := by
  refine ⟨rfl, fun fs => ⟨?_, rfl⟩⟩
  rfl

/-- Claim C10: `DisplayName::new` stores the whitespace-trimmed input, and
its 30 maximum-length limit applies to the UTF-8 byte length of the trimmed
string: a trimmed, non-empty input of at most 30 characters but more than 30
bytes is rejected with `InvalidDisplayNameTooLong`. -/
theorem claim_C10_display_name_byte_length :
    (∀ (s : String) (d : DisplayName),
      DisplayName.new s = Except.ok d → d.value = rust_trim s) ∧
    (∀ s : String, (rust_trim s).isEmpty = false → (rust_trim s).length ≤ 30 →
      DisplayName.max_len < utf8_len (rust_trim s) →
      DisplayName.new s = Except.error CommonError.InvalidDisplayNameTooLong) := by
  constructor
  · intro s d h
    unfold DisplayName.new at h
    by_cases h1 : (rust_trim s).isEmpty
    · simp [h1] at h
    · by_cases h2 : utf8_len (rust_trim s) > DisplayName.max_len
      · simp [h1, h2] at h
      · simp [h1, h2] at h
        rw [← h]
  · intro s h1 h2 h3
    unfold DisplayName.new
    simp [h1, h3]

/-- Witness for claim C10: the 16-character, 32-byte string of two-byte
characters is rejected as too long, and a valid name is stored trimmed. -/
theorem claim_C10_witness :
    DisplayName.new "ÅÄÖÅÄÖÅÄÖÅÄÖÅÄÖÅ" =
      Except.error CommonError.InvalidDisplayNameTooLong ∧
    (DisplayName.mk "Alice").value = rust_trim "  Alice " :=
  ⟨claim_C10_display_name_byte_length.2 "ÅÄÖÅÄÖÅÄÖÅÄÖÅÄÖÅ"
      (by decide) (by decide) (by decide),
    claim_C10_display_name_byte_length.1 "  Alice " ⟨"Alice"⟩ (by rfl)⟩

/-- Counterexample to claim C2 as stated: when the transaction-signing
instance is mistagged `AuthenticationSigning` and the supplied
authentication-signing instance is mistagged `TransactionSigning`, the
constructor fails with the authentication error (it checks the
authentication instance first), not with
`WrongKeyKindOfTransactionSigningFactorInstance` as the claim requires. -/
theorem claim_C2_counterexample :
    (instance_tagged CAP26KeyKind.AuthenticationSigning).key_kind =
      some CAP26KeyKind.AuthenticationSigning ∧
    UnsecuredEntityControl.new (instance_tagged CAP26KeyKind.AuthenticationSigning)
        (some (instance_tagged CAP26KeyKind.TransactionSigning)) =
      Except.error CommonError.WrongKeyKindOfAuthenticationSigningFactorInstance ∧
    UnsecuredEntityControl.new (instance_tagged CAP26KeyKind.AuthenticationSigning)
        (some (instance_tagged CAP26KeyKind.TransactionSigning)) ≠
      Except.error CommonError.WrongKeyKindOfTransactionSigningFactorInstance := by
  refine ⟨rfl, rfl, ?_⟩
  intro h
  exact absurd (Except.error.inj h) (by decide)

/-- Claim C2 (amended): `UnsecuredEntityControl::new` validates the
authentication-signing instance first: it fails with
`WrongKeyKindOfAuthenticationSigningFactorInstance` whenever that instance
is present and mistagged; otherwise it fails with
`WrongKeyKindOfTransactionSigningFactorInstance` whenever the
transaction-signing instance is mistagged; and it succeeds whenever both
key-kind tags are absent or match their role. -/
theorem claim_C2_amended_key_kind_validation :
    ∀ (ts : HierarchicalDeterministicFactorInstance)
      (auth : Option HierarchicalDeterministicFactorInstance),
    ((∃ a, auth = some a ∧
        ∃ k, a.key_kind = some k ∧ k ≠ CAP26KeyKind.AuthenticationSigning) →
      UnsecuredEntityControl.new ts auth =
        Except.error CommonError.WrongKeyKindOfAuthenticationSigningFactorInstance) ∧
    ((∀ a, auth = some a → ∀ k, a.key_kind = some k →
        k = CAP26KeyKind.AuthenticationSigning) →
     (∃ k, ts.key_kind = some k ∧ k ≠ CAP26KeyKind.TransactionSigning) →
      UnsecuredEntityControl.new ts auth =
        Except.error CommonError.WrongKeyKindOfTransactionSigningFactorInstance) ∧
    ((∀ a, auth = some a → ∀ k, a.key_kind = some k →
        k = CAP26KeyKind.AuthenticationSigning) →
     (∀ k, ts.key_kind = some k → k = CAP26KeyKind.TransactionSigning) →
      UnsecuredEntityControl.new ts auth = Except.ok ⟨ts, auth⟩) := by
  intro ts auth
  refine ⟨?_, ?_, ?_⟩
  · rintro ⟨a, rfl, k, hk, hne⟩
    simp [UnsecuredEntityControl.new, hk, hne]
  · rintro hauth ⟨k, hk, hne⟩
    cases auth with
    | none => simp [UnsecuredEntityControl.new, hk, hne]
    | some a =>
      cases ha : a.key_kind with
      | none => simp [UnsecuredEntityControl.new, ha, hk, hne]
      | some k2 =>
        have h2 : k2 = CAP26KeyKind.AuthenticationSigning := hauth a rfl k2 ha
        subst h2
        simp [UnsecuredEntityControl.new, ha, hk, hne]
  · intro hauth hts
    have hok : ∀ x : Option CAP26KeyKind, x = ts.key_kind →
        (match x with
          | some key_kind =>
            if key_kind ≠ CAP26KeyKind.TransactionSigning then
              Except.error CommonError.WrongKeyKindOfTransactionSigningFactorInstance
            else Except.ok (⟨ts, auth⟩ : UnsecuredEntityControl)
          | none => Except.ok ⟨ts, auth⟩) = Except.ok ⟨ts, auth⟩ := by
      intro x hx
      cases x with
      | none => rfl
      | some k => simp [hts k hx.symm]
    cases auth with
    | none =>
      simp only [UnsecuredEntityControl.new]
      exact hok _ rfl
    | some a =>
      cases ha : a.key_kind with
      | none =>
        simp only [UnsecuredEntityControl.new, ha]
        exact hok _ rfl
      | some k2 =>
        have h2 : k2 = CAP26KeyKind.AuthenticationSigning := hauth a rfl k2 ha
        subst h2
        simp only [UnsecuredEntityControl.new, ha, ne_eq, not_true_eq_false,
          ite_false, if_neg]
        exact hok _ rfl

/-- Witness for the amended claim C2, at concrete instances for each of the
three cases. -/
theorem claim_C2_witness :
    UnsecuredEntityControl.new (instance_tagged CAP26KeyKind.TransactionSigning)
        (some (instance_tagged CAP26KeyKind.TransactionSigning)) =
      Except.error CommonError.WrongKeyKindOfAuthenticationSigningFactorInstance ∧
    UnsecuredEntityControl.new (instance_tagged CAP26KeyKind.AuthenticationSigning) none =
      Except.error CommonError.WrongKeyKindOfTransactionSigningFactorInstance ∧
    UnsecuredEntityControl.new (instance_tagged CAP26KeyKind.TransactionSigning)
        (some (instance_tagged CAP26KeyKind.AuthenticationSigning)) =
      Except.ok ⟨instance_tagged CAP26KeyKind.TransactionSigning,
        some (instance_tagged CAP26KeyKind.AuthenticationSigning)⟩ :=
  ⟨(claim_C2_amended_key_kind_validation _ _).1
      ⟨instance_tagged CAP26KeyKind.TransactionSigning, rfl,
        CAP26KeyKind.TransactionSigning, rfl, by decide⟩,
    (claim_C2_amended_key_kind_validation _ _).2.1 (by intro a h; cases h)
      ⟨CAP26KeyKind.AuthenticationSigning, rfl, by decide⟩,
    (claim_C2_amended_key_kind_validation _ _).2.2
      (by
        intro a ha k hk
        cases Option.some.inj ha
        exact (Option.some.inj hk).symm)
      (by
        intro k hk
        exact (Option.some.inj hk).symm)⟩

/-- Counterexample to claim C5 as stated: pairing a mnemonic with a factor
source whose id was fingerprinted from a different mnemonic does not produce
an `IdentityMismatch` error value — the constructor's `assert_eq!` panics
instead. -/
theorem claim_C5_counterexample :
    placeholder_dfs.id ≠
      FactorSourceIDFromHash.from_mnemonic_with_passphrase FactorSourceKind.Device
        placeholder_mwp_other ∧
    PrivateHierarchicalDeterministicFactorSource.new placeholder_mwp_other
        placeholder_dfs = PResult.assertFailed ∧
    PrivateHierarchicalDeterministicFactorSource.new placeholder_mwp_other
        placeholder_dfs ≠ PResult.err CommonError.IdentityMismatch := by
  refine ⟨by decide, by decide, ?_⟩
  intro h
  rw [show PrivateHierarchicalDeterministicFactorSource.new placeholder_mwp_other
      placeholder_dfs = PResult.assertFailed from by decide] at h
  cases h

/-- Claim C5 (amended): constructing
`PrivateHierarchicalDeterministicFactorSource` with a factor source whose id
differs from the fingerprint recomputed from the supplied mnemonic is a
construction-time failure — an assertion panic carrying no error value —
and construction succeeds when the ids correspond. -/
theorem claim_C5_amended_identity_check :
    ∀ (mwp : MnemonicWithPassphrase) (fs : DeviceFactorSource),
    (fs.id ≠ FactorSourceIDFromHash.from_mnemonic_with_passphrase
        fs.factor_source_kind mwp →
      PrivateHierarchicalDeterministicFactorSource.new mwp fs =
        PResult.assertFailed) ∧
    (fs.id = FactorSourceIDFromHash.from_mnemonic_with_passphrase
        fs.factor_source_kind mwp →
      PrivateHierarchicalDeterministicFactorSource.new mwp fs =
        PResult.ok ⟨mwp, fs⟩) := by
  intro mwp fs
  constructor
  · intro h
    simp [PrivateHierarchicalDeterministicFactorSource.new, h]
  · intro h
    simp [PrivateHierarchicalDeterministicFactorSource.new, h]

/-- Witness for the amended claim C5: the matching placeholder pair
constructs successfully, the mismatched pair panics. -/
theorem claim_C5_witness :
    PrivateHierarchicalDeterministicFactorSource.new placeholder_mwp_other
        placeholder_dfs = PResult.assertFailed ∧
    PrivateHierarchicalDeterministicFactorSource.new placeholder_mwp
        placeholder_dfs = PResult.ok placeholder_private_hd :=
  ⟨(claim_C5_amended_identity_check placeholder_mwp_other placeholder_dfs).1
      (by decide),
    (claim_C5_amended_identity_check placeholder_mwp placeholder_dfs).2
      (by decide)⟩

/-- An account's `cmp` is the `Nat` comparison of the two last path
components. -/
theorem account_cmp_eq_compare (a b : Account) :
    Account.cmp a b = compare a.last_path_component b.last_path_component := by
  rcases a with ⟨n1, ad1, d1, s1, ap1, f1, o1⟩
  rcases b with ⟨n2, ad2, d2, s2, ap2, f2, o2⟩
  rcases s1 with ⟨c1⟩
  rcases s2 with ⟨c2⟩
  rfl

/-- Claim C6: for unsecured accounts, `a < b` under the `Ord for Account`
instance holds exactly when the last path component (the derivation index)
of a's transaction-signing factor instance is less than b's; no other field
enters the comparison.  In particular two accounts derived from the same
factor source at indices 0 and 1 are ordered. -/
theorem claim_C6_account_ordering :
    (∀ a b : Account,
      Account.lt a b ↔ a.last_path_component < b.last_path_component) ∧
    Account.lt (placeholder_account_at 0) (placeholder_account_at 1) := by
  have hmain : ∀ a b : Account,
      Account.lt a b ↔ a.last_path_component < b.last_path_component := by
    intro a b
    unfold Account.lt
    rw [account_cmp_eq_compare]
    exact Nat.compare_eq_lt
  exact ⟨hmain, (hmain _ _).mpr (by decide)⟩

/-- A string starts with itself followed by anything. -/
theorem string_starts_with_append (a b : String) :
    string_starts_with (a ++ b) a = true := by
  simp only [string_starts_with, List.isPrefixOf_iff_prefix, String.data_append]
  exact List.prefix_append _ _

/-- Claim C3: decoding with `try_from_bech32` the address produced by
`from_public_key` for network N and entity type T (Account or Identity, the
types for which `from_public_key` is defined) succeeds and yields an address
with network N and type T. -/
theorem claim_C3_address_round_trip :
    ∀ (pk : PublicKey) (network_id : NetworkID) (t : AbstractEntityType)
      (a : AnyEntityAddress),
    EntityAddress.from_public_key t pk network_id = some a →
    EntityAddress.try_from_bech32 t a.address = Except.ok a ∧
    a.network_id = network_id ∧ a.entity_type = t := by
  intro pk n t a h
  cases t with
  | Resource => simp [EntityAddress.from_public_key] at h
  | Account =>
    simp only [EntityAddress.from_public_key] at h
    cases Option.some.inj h
    refine ⟨?_, rfl, rfl⟩
    simp [EntityAddress.try_from_bech32, decode_address, string_starts_with_append]
  | Identity =>
    simp only [EntityAddress.from_public_key] at h
    cases Option.some.inj h
    refine ⟨?_, rfl, rfl⟩
    simp [EntityAddress.try_from_bech32, decode_address, string_starts_with_append]

/-- Witness for claim C3 at the placeholder public key on mainnet. -/
theorem claim_C3_witness :
    EntityAddress.try_from_bech32 AbstractEntityType.Account c3_addr.address =
      Except.ok c3_addr ∧
    c3_addr.network_id = ⟨1⟩ ∧ c3_addr.entity_type = AbstractEntityType.Account :=
  claim_C3_address_round_trip ⟨5⟩ ⟨1⟩ AbstractEntityType.Account c3_addr rfl

/-- Claim C4: on a decodable string, `try_from_bech32` rejects a decoded
entity type differing from the expected one with
`MismatchingEntityTypeWhileDecodingAddress`; with matching type but an hrp
not starting with the expected type's prefix it rejects with
`MismatchingHRPWhileDecodingAddress`; an undecodable string yields the
generic decode error. -/
theorem claim_C4_decode_failures :
    (∀ (n : NetworkID) (decoded expected : AbstractEntityType)
      (hrp : String) (payload : Nat),
      decoded ≠ expected →
      EntityAddress.try_from_bech32 expected (AddressString.valid n decoded hrp payload) =
        Except.error CommonError.MismatchingEntityTypeWhileDecodingAddress) ∧
    (∀ (n : NetworkID) (t : AbstractEntityType) (hrp : String) (payload : Nat),
      string_starts_with hrp t.hrp = false →
      EntityAddress.try_from_bech32 t (AddressString.valid n t hrp payload) =
        Except.error CommonError.MismatchingHRPWhileDecodingAddress) ∧
    (∀ (t : AbstractEntityType) (raw : String),
      EntityAddress.try_from_bech32 t (AddressString.invalid raw) =
        Except.error CommonError.FailedToDecodeAddressFromBech32) := by
  refine ⟨?_, ?_, ?_⟩
  · intro n d e hrp payload hne
    simp [EntityAddress.try_from_bech32, decode_address, hne]
  · intro n t hrp payload hsw
    simp [EntityAddress.try_from_bech32, decode_address, hsw]
  · intro t raw
    rfl

/-- Witness for claim C4: an Account-typed string through the Identity
decoder, a foreign hrp, and a non-bech32 string. -/
theorem claim_C4_witness :
    EntityAddress.try_from_bech32 AbstractEntityType.Identity
        (AddressString.valid ⟨1⟩ AbstractEntityType.Account "account_rdx" 7) =
      Except.error CommonError.MismatchingEntityTypeWhileDecodingAddress ∧
    EntityAddress.try_from_bech32 AbstractEntityType.Account
        (AddressString.valid ⟨1⟩ AbstractEntityType.Account "foreign" 7) =
      Except.error CommonError.MismatchingHRPWhileDecodingAddress ∧
    EntityAddress.try_from_bech32 AbstractEntityType.Account
        (AddressString.invalid "not bech32") =
      Except.error CommonError.FailedToDecodeAddressFromBech32 :=
  ⟨claim_C4_decode_failures.1 ⟨1⟩ AbstractEntityType.Account
      AbstractEntityType.Identity "account_rdx" 7 (by decide),
    claim_C4_decode_failures.2.1 ⟨1⟩ AbstractEntityType.Account "foreign" 7
      (by decide),
    claim_C4_decode_failures.2.2 AbstractEntityType.Account "not bech32"⟩

/-- Claim C1: if saving the mnemonic to secure storage succeeds but the
subsequent `add_factor_source` step fails with some error `e`, then
`add_private_device_factor_source` returns that original error `e` and
attempts the compensating delete of the just-saved mnemonic; since the
storage oracle `o` — including its delete-failure behaviour — is arbitrary,
a failure of the compensating delete is never escalated in place of `e`. -/
theorem claim_C1_compensating_delete :
    ∀ (o : StorageOracle) (st : WalletState)
      (pfs : PrivateHierarchicalDeterministicFactorSource) (e : CommonError),
    o.save_mnemonic_fails = false →
    (Wallet.add_factor_source o
        { st with mnemonics :=
            (pfs.factor_source.id, pfs.mnemonic_with_passphrase) :: st.mnemonics }
        (FactorSource.Device pfs.factor_source)).1 = Except.error e →
    (Wallet.add_private_device_factor_source o st pfs).1 = Except.error e ∧
    (Wallet.add_private_device_factor_source o st pfs).2.2 = true := by
  intro o st pfs e hsave hadd
  rcases hres : Wallet.add_factor_source o
      { st with mnemonics :=
          (pfs.factor_source.id, pfs.mnemonic_with_passphrase) :: st.mnemonics }
      (FactorSource.Device pfs.factor_source) with ⟨r, st2⟩
  rw [hres] at hadd
  simp only at hadd
  subst hadd
  simp [Wallet.add_private_device_factor_source, hsave, hres]

/-- Witness for claim C1: with empty starting state the factor-source
append step fails (so the original error is
`UnableToSaveFactorSourceToProfile`), the compensating delete is attempted,
and — with an oracle whose delete always fails — the returned error is still
the original one. -/
theorem claim_C1_witness :
    (Wallet.add_private_device_factor_source ⟨false, true, false⟩
        ⟨⟨[], []⟩, []⟩ placeholder_private_hd).1 =
      Except.error (CommonError.UnableToSaveFactorSourceToProfile
        placeholder_dfs.id) ∧
    (Wallet.add_private_device_factor_source ⟨false, true, false⟩
        ⟨⟨[], []⟩, []⟩ placeholder_private_hd).2.2 = true :=
  claim_C1_compensating_delete ⟨false, true, false⟩ ⟨⟨[], []⟩, []⟩
    placeholder_private_hd
    (CommonError.UnableToSaveFactorSourceToProfile placeholder_dfs.id)
    rfl rfl

/-- Claim C7: `create_new_account` never changes the wallet state (in
particular the profile's factor sources, networks and accounts are identical
before and after), and any account it returns is the one constructed from
the factor instance derived at the next unused index for the requested
network. -/
theorem claim_C7_create_account_is_pure :
    ∀ (st : WalletState) (network_id : NetworkID) (name : DisplayName),
    (Wallet.create_new_account st network_id name).2 = st ∧
    (∀ (a : Account) (bdfs : DeviceFactorSource)
      (p : PrivateHierarchicalDeterministicFactorSource),
      (Wallet.create_new_account st network_id name).1 = PResult.ok a →
      st.profile.bdfs = some bdfs →
      Wallet.load_private_device_factor_source st bdfs = PResult.ok p →
      a = Account.new
        (p.derive_account_creation_factor_instance network_id
          (st.profile.next_derivation_index_for_entity network_id))
        name
        (appearance_id_from_number_of_accounts
          (accounts_on_network st.profile network_id).length)) := by
  intro st nid name
  constructor
  · cases hb : st.profile.bdfs with
    | none => simp [Wallet.create_new_account, hb]
    | some bdfs =>
      cases hl : Wallet.load_private_device_factor_source st bdfs with
      | ok p => simp [Wallet.create_new_account, hb, hl]
      | err e => simp [Wallet.create_new_account, hb, hl]
      | assertFailed => simp [Wallet.create_new_account, hb, hl]
  · intro a bdfs p ha hb hl
    simp only [Wallet.create_new_account, hb, hl] at ha
    exact (PResult.ok.inj ha).symm

/-- Witness for claim C7: from the placeholder wallet state on mainnet, the
state is unchanged and the returned account is the one derived at index 0. -/
theorem claim_C7_witness :
    (Wallet.create_new_account placeholder_wallet_state ⟨1⟩ placeholder_name).2 =
      placeholder_wallet_state ∧
    placeholder_account_at 0 = Account.new
      (placeholder_private_hd.derive_account_creation_factor_instance ⟨1⟩
        (placeholder_wallet_state.profile.next_derivation_index_for_entity ⟨1⟩))
      placeholder_name
      (appearance_id_from_number_of_accounts
        (accounts_on_network placeholder_wallet_state.profile ⟨1⟩).length) :=
  ⟨(claim_C7_create_account_is_pure placeholder_wallet_state ⟨1⟩ placeholder_name).1,
    (claim_C7_create_account_is_pure placeholder_wallet_state ⟨1⟩ placeholder_name).2
      (placeholder_account_at 0) placeholder_dfs placeholder_private_hd
      rfl rfl rfl⟩

/-- Accounts of a cons whose head entry matches the id. -/
theorem accounts_on_cons_pos {n : Network} {rest : List Network} {nid : NetworkID}
    (h : n.id = nid) :
    networks_accounts_on (n :: rest) nid = n.accounts := by
  simp [networks_accounts_on, List.find?_cons, h]

/-- Accounts of a cons whose head entry does not match the id. -/
theorem accounts_on_cons_neg {n : Network} {rest : List Network} {nid : NetworkID}
    (h : ¬n.id = nid) :
    networks_accounts_on (n :: rest) nid = networks_accounts_on rest nid := by
  simp [networks_accounts_on, List.find?_cons, h]

/-- A missing id means the find is empty. -/
theorem networks_find_none {ns : List Network} {nid : NetworkID}
    (h : networks_contains_id ns nid = false) :
    ns.find? (fun n => decide (n.id = nid)) = none := by
  rw [List.find?_eq_none]
  intro x hx
  simpa using (List.any_eq_false.mp h) x hx

/-- Appending a fresh entry with the sought id exposes its accounts. -/
theorem accounts_on_append_new {ns : List Network} {nid : NetworkID} {m : Network}
    (h : networks_contains_id ns nid = false) (hm : m.id = nid) :
    networks_accounts_on (ns ++ [m]) nid = m.accounts := by
  simp [networks_accounts_on, List.find?_append, networks_find_none h,
    List.find?_cons, hm]

/-- `try_update_with` with the account-appending closure succeeds when the
network entry exists and holds no account with the appended account's
address; the entry's account list gains exactly that account. -/
theorem try_update_append_ok (acc : Account) :
    ∀ (ns : List Network) (nid : NetworkID),
    networks_contains_id ns nid = true →
    (networks_accounts_on ns nid).any
      (fun y => decide (y.address = acc.address)) = false →
    ∃ ns', networks_try_update_with ns nid (append_account_closure acc) =
        Except.ok (true, ns') ∧
      networks_accounts_on ns' nid = networks_accounts_on ns nid ++ [acc] ∧
      networks_contains_id ns' nid = true := by
  intro ns
  induction ns with
  | nil => intro nid h _; simp [networks_contains_id] at h
  | cons n rest ih =>
    intro nid hc hf
    by_cases hid : n.id = nid
    · rw [accounts_on_cons_pos hid] at hf
      refine ⟨{ n with accounts := n.accounts ++ [acc] } :: rest, ?_, ?_, ?_⟩
      · simp [networks_try_update_with, hid, append_account_closure,
          identified_append, hf]
      · rw [accounts_on_cons_pos hid,
          @accounts_on_cons_pos { n with accounts := n.accounts ++ [acc] } rest nid hid]
      · simp [networks_contains_id, hid]
    · have hc' : networks_contains_id rest nid = true := by
        simp [networks_contains_id, List.any_cons, hid] at hc
        simpa [networks_contains_id] using hc
      rw [accounts_on_cons_neg hid] at hf
      obtain ⟨rest', h1, h2, h3⟩ := ih nid hc' hf
      refine ⟨n :: rest', ?_, ?_, ?_⟩
      · simp [networks_try_update_with, hid, h1]
      · rw [accounts_on_cons_neg hid, accounts_on_cons_neg hid, h2]
      · simp [networks_contains_id, List.any_cons, hid]
        simpa [networks_contains_id] using h3

/-- `try_update_with` with the account-appending closure propagates the
`AccountAlreadyPresent` error when the entry already holds an account with
the same address. -/
theorem try_update_append_dup (acc : Account) :
    ∀ (ns : List Network) (nid : NetworkID),
    networks_contains_id ns nid = true →
    (networks_accounts_on ns nid).any
      (fun y => decide (y.address = acc.address)) = true →
    networks_try_update_with ns nid (append_account_closure acc) =
      Except.error (CommonError.AccountAlreadyPresent acc.address) := by
  intro ns
  induction ns with
  | nil => intro nid h _; simp [networks_contains_id] at h
  | cons n rest ih =>
    intro nid hc hd
    by_cases hid : n.id = nid
    · rw [accounts_on_cons_pos hid] at hd
      simp [networks_try_update_with, hid, append_account_closure,
        identified_append, hd]
    · have hc' : networks_contains_id rest nid = true := by
        simp [networks_contains_id, List.any_cons, hid] at hc
        simpa [networks_contains_id] using hc
      rw [accounts_on_cons_neg hid] at hd
      simp [networks_try_update_with, hid, ih nid hc' hd]

/-- Inversion of a successful `add_account` profile update: the network
entry for the account's network now exists, its account list gained exactly
the new account, and no account with the same address was previously
there. -/
theorem add_account_to_networks_ok_inv (p : Profile) (acc : Account) (p' : Profile)
    (h : Profile.add_account_to_networks p acc = Except.ok p') :
    networks_contains_id p'.networks acc.network_id = true ∧
    networks_accounts_on p'.networks acc.network_id =
      networks_accounts_on p.networks acc.network_id ++ [acc] ∧
    (networks_accounts_on p.networks acc.network_id).any
      (fun y => decide (y.address = acc.address)) = false := by
  unfold Profile.add_account_to_networks at h
  by_cases hc : networks_contains_id p.networks acc.network_id = true
  · rw [if_pos hc] at h
    by_cases hd : (networks_accounts_on p.networks acc.network_id).any
        (fun y => decide (y.address = acc.address)) = true
    · rw [try_update_append_dup acc _ _ hc hd] at h
      cases h
    · have hd' : (networks_accounts_on p.networks acc.network_id).any
          (fun y => decide (y.address = acc.address)) = false :=
        Bool.eq_false_iff.mpr hd
      obtain ⟨ns', h1, h2, h3⟩ := try_update_append_ok acc _ _ hc hd'
      rw [h1] at h
      simp only [if_pos] at h
      cases Except.ok.inj h
      exact ⟨h3, h2, hd'⟩
  · have hc' : networks_contains_id p.networks acc.network_id = false :=
      Bool.eq_false_iff.mpr hc
    rw [if_neg (by simp [hc'])] at h
    have happ : identified_append Network.id p.networks
        ⟨acc.network_id, [acc]⟩ =
        (true, p.networks ++ [⟨acc.network_id, [acc]⟩]) := by
      unfold identified_append
      rw [if_neg]
      simp only [networks_contains_id] at hc'
      simp [hc']
    rw [happ] at h
    cases Except.ok.inj h
    have hacc : networks_accounts_on p.networks acc.network_id = [] := by
      simp [networks_accounts_on, networks_find_none hc']
    refine ⟨?_, ?_, ?_⟩
    · simp [networks_contains_id, List.any_append]
    · rw [accounts_on_append_new hc' rfl, hacc]
      rfl
    · rw [hacc]
      rfl

/-- A fresh account (no address clash in its network's entry) is accepted by
the profile update. -/
theorem add_account_to_networks_fresh (p : Profile) (acc : Account)
    (hf : (networks_accounts_on p.networks acc.network_id).any
      (fun y => decide (y.address = acc.address)) = false) :
    ∃ p', Profile.add_account_to_networks p acc = Except.ok p' := by
  unfold Profile.add_account_to_networks
  by_cases hc : networks_contains_id p.networks acc.network_id = true
  · obtain ⟨ns', h1, _, _⟩ := try_update_append_ok acc _ _ hc hf
    rw [if_pos hc, h1]
    exact ⟨_, rfl⟩
  · rw [if_neg hc]
    exact ⟨_, rfl⟩

/-- A duplicate account (address already present in its network's entry) is
rejected by the profile update. -/
theorem add_account_to_networks_dup (p : Profile) (acc : Account)
    (hc : networks_contains_id p.networks acc.network_id = true)
    (hd : (networks_accounts_on p.networks acc.network_id).any
      (fun y => decide (y.address = acc.address)) = true) :
    Profile.add_account_to_networks p acc =
      Except.error (CommonError.AccountAlreadyPresent acc.address) := by
  unfold Profile.add_account_to_networks
  rw [if_pos hc, try_update_append_dup acc _ _ hc hd]

/-- Claim C8: (with the profile-persistence collaborator succeeding) a first
`add_account` of a fresh account succeeds; after any successful
`add_account`, calling it again with the same account fails with
`AccountAlreadyPresent` and leaves the wallet state unchanged, with exactly
one copy of the account in its network's collection; and when no network
entry for the account's network existed, the first call creates the entry
containing exactly that account. -/
theorem claim_C8_add_account_twice :
    ∀ (st : WalletState) (acc : Account),
    ((accounts_on_network st.profile acc.network_id).any
        (fun y => decide (y.address = acc.address)) = false →
      ∃ st1, Wallet.add_account false st acc = (Except.ok (), st1)) ∧
    (∀ st1, Wallet.add_account false st acc = (Except.ok (), st1) →
      Wallet.add_account false st1 acc =
        (Except.error (CommonError.AccountAlreadyPresent acc.address), st1) ∧
      (accounts_on_network st1.profile acc.network_id).countP
        (fun y => decide (y = acc)) = 1) ∧
    (networks_contains_id st.profile.networks acc.network_id = false →
      ∃ st1, Wallet.add_account false st acc = (Except.ok (), st1) ∧
        accounts_on_network st1.profile acc.network_id = [acc]) := by
  intro st acc
  refine ⟨?_, ?_, ?_⟩
  · intro hf
    obtain ⟨p', hp⟩ := add_account_to_networks_fresh st.profile acc hf
    exact ⟨{ st with profile := p' },
      by simp [Wallet.add_account, Wallet.try_write, hp]⟩
  · intro st1 h
    simp only [Wallet.add_account, Wallet.try_write] at h
    cases hp : Profile.add_account_to_networks st.profile acc with
    | error e =>
      rw [hp] at h
      simp at h
    | ok p' =>
      rw [hp] at h
      simp only [Bool.false_eq_true, if_false, Prod.mk.injEq] at h
      obtain ⟨hcontains, hgain, hfresh⟩ :=
        add_account_to_networks_ok_inv st.profile acc p' hp
      have hst1 : st1 = { st with profile := p' } := h.2.symm
      subst hst1
      have hdup : (networks_accounts_on p'.networks acc.network_id).any
          (fun y => decide (y.address = acc.address)) = true := by
        rw [hgain]
        simp [List.any_append]
      constructor
      · simp [Wallet.add_account, Wallet.try_write,
          add_account_to_networks_dup p' acc hcontains hdup]
      · show (accounts_on_network p' acc.network_id).countP _ = 1
        unfold accounts_on_network
        rw [hgain, List.countP_append]
        have hzero : (networks_accounts_on st.profile.networks
            acc.network_id).countP (fun y => decide (y = acc)) = 0 := by
          rw [List.countP_eq_zero]
          intro y hy hya
          have : y = acc := of_decide_eq_true hya
          subst this
          have := (List.any_eq_false.mp hfresh) y hy
          simp at this
        rw [hzero]
        simp
  · intro hc
    obtain ⟨p', hp⟩ := add_account_to_networks_fresh st.profile acc
      (by simp [accounts_on_network, networks_accounts_on, networks_find_none hc])
    obtain ⟨_, hgain, _⟩ := add_account_to_networks_ok_inv st.profile acc p' hp
    refine ⟨{ st with profile := p' },
      by simp [Wallet.add_account, Wallet.try_write, hp], ?_⟩
    show networks_accounts_on p'.networks acc.network_id = [acc]
    rw [hgain]
    simp [networks_accounts_on, networks_find_none hc]

/-- Witness for claim C8: adding the index-0 placeholder account to the
state that already holds it fails with `AccountAlreadyPresent`, changes
nothing, and the account is present exactly once. -/
theorem claim_C8_witness :
    Wallet.add_account false c8_state1 (placeholder_account_at 0) =
      (Except.error (CommonError.AccountAlreadyPresent
        (placeholder_account_at 0).address), c8_state1) ∧
    (accounts_on_network c8_state1.profile
        (placeholder_account_at 0).network_id).countP
      (fun y => decide (y = placeholder_account_at 0)) = 1 :=
  (claim_C8_add_account_twice placeholder_wallet_state
      (placeholder_account_at 0)).2.1 c8_state1 rfl

end RadixWalletKit
